import Mathlib

/-
Shallow embedding of the mongo-gridfs wrapper (src/mongo-gridfs.class.ts).

Modelling conventions:
- ObjectID is the bson identifier; its constructor accepts a 12 character
  string or a 24 character hex string and throws a TypeError otherwise.
- The system temp directory (osTmpdir()) and the random component produced
  by the unique-filename library are passed in as parameters tmpdir and
  rand; uniqueFilename dir = dir ++ "/" ++ rand mirrors that library
  (path.join of the directory with a random base name).
- The metadata store behind bucket.find is a list of records; a mongo
  filter document is embedded as a boolean predicate on records.
- Promise settlement of event-driven code is modelled by a function from
  the possible stream events to Option (Except ...): some r means the
  promise settles with r, none means no registered handler fires and the
  promise never settles.
- The local filesystem is a list of existing paths together with an
  environment oracle unlinkErr saying whether fs.unlinkSync at a path
  throws (for example a permission error) instead of removing the file.
-/

namespace GridFS

/-- Hex digit test used by the ObjectID string validation of bson. -/
def isHexChar (c : Char) : Bool :=
  c.isDigit || ('a' ≤ c && c ≤ 'f') || ('A' ≤ c && c ≤ 'F')

/-- Opaque store identifier; hex is the string rendering used by template
interpolation on the TypeScript side. -/
structure ObjectID where
  hex : String
deriving DecidableEq, Repr

def ObjectID.render (o : ObjectID) : String := o.hex

/-- Error taxonomy of the wrapper. storeError and fsError carry the
underlying message verbatim. -/
inductive GFSError where
  | invalidIdentifier (msg : String)
  | notFound
  | fileNotFound
  | storeError (e : String)
  | fsError (e : String)
deriving DecidableEq, Repr

/-- Message of the TypeError thrown by the bson ObjectID constructor. -/
def objectIdParseMsg : String :=
  "Argument passed in must be a single String of 12 bytes or a string of 24 hex characters"

/-- Validity test of the bson ObjectID constructor on a string argument. -/
def isValidObjectId (s : String) : Bool :=
  s.length == 12 || (s.length == 24 && s.toList.all isHexChar)

/-- new ObjectID(id): ok on a valid string, otherwise the TypeError. -/
def parseObjectID (s : String) : Except GFSError ObjectID :=
  if isValidObjectId s then Except.ok ⟨s⟩
  else Except.error (GFSError.invalidIdentifier objectIdParseMsg)

/-- Metadata record interface IGridFSObject of the source. -/
structure IGridFSObject where
  _id : ObjectID
  length : Nat
  chunkSize : Nat
  uploadDate : Nat
  md5 : String
  filename : String
  contentType : String
  metadata : List (String × String)
deriving DecidableEq, Repr

/-- TypeScript union boolean | string of the filename download option. -/
inductive FilenameOption where
  | bool (b : Bool)
  | str (s : String)
deriving DecidableEq, Repr

/-- Interface IDownloadOptions of the source; targetDir is optional. -/
structure IDownloadOptions where
  filename : FilenameOption
  targetDir : Option String
deriving DecidableEq, Repr

/-- Default parameter value of getDownloadPath in the source:
options = filename false, no targetDir. -/
def defaultDownloadOptions : IDownloadOptions := ⟨FilenameOption.bool false, none⟩

/-- Result of uniqueFilename(dir): the directory joined with a randomly
generated base name, here the parameter rand. -/
def uniqueFilename (dir rand : String) : String := dir ++ "/" ++ rand

/-- The JavaScript truth value of the expression !options.targetDir:
true when targetDir is absent or the empty string (both falsy). -/
def targetDirFalsy (d : Option String) : Bool :=
  match d with
  | none => true
  | some t => t == ""

/-- MongoGridFS.getDownloadPath translated branch by branch from the
source; tmpdir stands for osTmpdir() and rand for the random component
of the unique-filename library. -/
def getDownloadPath (tmpdir rand : String) (object : IGridFSObject)
    (options : IDownloadOptions) : String :=
  if targetDirFalsy options.targetDir then
    match options.filename with
    | FilenameOption.str s => tmpdir ++ "/" ++ s
    | FilenameOption.bool true => tmpdir ++ "/" ++ object._id.render
    | FilenameOption.bool false => uniqueFilename tmpdir rand
  else
    match options.filename with
    | FilenameOption.str s => (options.targetDir.getD "") ++ "/" ++ s
    | FilenameOption.bool true => object.filename
    | FilenameOption.bool false => uniqueFilename (options.targetDir.getD "") rand

/-- The six row decision table exactly as the claim states it: a row is
selected by whether targetDir is syntactically present. Written from the
words of the spec, to be compared with getDownloadPath. -/
def resolvePathClaim (tmpdir rand : String) (record : IGridFSObject)
    (options : IDownloadOptions) : String :=
  match options.targetDir, options.filename with
  | none, FilenameOption.str s => tmpdir ++ "/" ++ s
  | none, FilenameOption.bool true => tmpdir ++ "/" ++ record._id.render
  | none, FilenameOption.bool false => tmpdir ++ "/" ++ rand
  | some t, FilenameOption.str s => t ++ "/" ++ s
  | some _, FilenameOption.bool true => record.filename
  | some t, FilenameOption.bool false => t ++ "/" ++ rand

/-- Amendment forced by JavaScript falsiness: an empty string targetDir is
treated as absent. -/
def effectiveTargetDir (d : Option String) : Option String :=
  match d with
  | some t => if t = "" then none else some t
  | none => none

/-- The decision table of the claim, amended: the row is selected by the
effective (truthy) targetDir rather than by syntactic presence. -/
def resolvePathAmended (tmpdir rand : String) (record : IGridFSObject)
    (options : IDownloadOptions) : String :=
  resolvePathClaim tmpdir rand record ⟨options.filename, effectiveTargetDir options.targetDir⟩

/-- Call of getDownloadPath with the options argument omitted: the default
parameter value of the source applies. -/
def getDownloadPathDefaulted (tmpdir rand : String) (object : IGridFSObject) : String :=
  getDownloadPath tmpdir rand object defaultDownloadOptions

/-- Shared sample record used by concrete witnesses. -/
def sampleOid : ObjectID := ⟨"59e085f272882d728e2fa4c2"⟩

def sampleObject : IGridFSObject :=
  ⟨sampleOid, 10, 255, 0, "d41d8cd98f00b204e9800998ecf8427e", "a.txt", "text/plain", []⟩

/-- MongoGridFS.find: bucket.find(filter).toArray() over the metadata
store, embedded as list filtering; it returns a list, never an error. -/
def find (store : List IGridFSObject) (filter : IGridFSObject → Bool) :
    List IGridFSObject :=
  store.filter filter

/-- MongoGridFS.findOne: throws No Object found when find gives the empty
list, otherwise returns result[0]. -/
def findOne (store : List IGridFSObject) (filter : IGridFSObject → Bool) :
    Except GFSError IGridFSObject :=
  match find store filter with
  | [] => Except.error GFSError.notFound
  | x :: _ => Except.ok x

/-- The mongo filter document with _id equal to oid, as a predicate. -/
def idFilter (oid : ObjectID) : IGridFSObject → Bool :=
  fun o => o._id == oid

/-- MongoGridFS.findById: findOne with the identifier equality filter built
from new ObjectID(id); a constructor throw propagates unchanged. -/
def findById (store : List IGridFSObject) (id : String) :
    Except GFSError IGridFSObject :=
  match parseObjectID id with
  | Except.error e => Except.error e
  | Except.ok oid => findOne store (idFilter oid)

/-- Events a download transfer can produce: the source read stream fails,
the source read stream ends, or the destination write stream fails. -/
inductive StreamEvent where
  | readError (e : String)
  | readEnd
  | writeError (e : String)
deriving DecidableEq, Repr

/-- Settlement behaviour of the promise inside downloadFile, read off the
handler registrations in the source: once error on the read stream calls
reject, once end on the read stream calls resolve(downloadPath), and the
pipe destination write stream has no handler at all, so a write failure
settles nothing. -/
def downloadFileSettle (downloadPath : String) :
    StreamEvent → Option (Except GFSError String)
  | StreamEvent.readError e => some (Except.error (GFSError.storeError e))
  | StreamEvent.readEnd => some (Except.ok downloadPath)
  | StreamEvent.writeError _ => none

/-- MongoGridFS.downloadFile: resolve the record via findById (errors
propagate as rejection), compute the path via getDownloadPath with the
default options when the caller omitted them, then settle according to the
first stream event. -/
def downloadFile (store : List IGridFSObject) (tmpdir rand : String)
    (id : String) (options : Option IDownloadOptions) (ev : StreamEvent) :
    Option (Except GFSError String) :=
  match findById store id with
  | Except.error e => some (Except.error e)
  | Except.ok object =>
      downloadFileSettle
        (getDownloadPath tmpdir rand object (options.getD defaultDownloadOptions)) ev

/-- Interface IGridFSWriteOption of the source. -/
structure IGridFSWriteOption where
  filename : String
  chunkSizeBytes : Option Nat
  metadata : List (String × String)
  contentType : Option String
  aliases : List String
deriving DecidableEq, Repr

/-- Local filesystem model: the set of existing paths, plus an environment
oracle saying whether fs.unlinkSync at a path throws instead of removing
the file (for example a permission error). -/
structure LocalFS where
  files : List String
  unlinkErr : String → Option String

/-- fs.existsSync. -/
def existsSync (fs : LocalFS) (p : String) : Bool :=
  fs.files.contains p

/-- fs.unlinkSync: removes the path, or throws when the environment makes
the deletion fail. -/
def unlinkSync (fs : LocalFS) (p : String) : Except String LocalFS :=
  match fs.unlinkErr p with
  | some e => Except.error e
  | none => Except.ok ⟨fs.files.filter (fun q => q != p), fs.unlinkErr⟩

/-- The tryDeleteFile closure inside uploadFile: unlink only when the file
still exists and deleteFile is true; note there is no try catch around the
unlink, so an unlink throw propagates. -/
def tryDeleteFile (fs : LocalFS) (uploadFilePath : String) (deleteFile : Bool) :
    Except String LocalFS :=
  if existsSync fs uploadFilePath && deleteFile then unlinkSync fs uploadFilePath
  else Except.ok fs

/-- MongoGridFS.uploadFile. uploadOutcome is the settled result of the
writeFileStream transfer (ok metadata or the stream error); the result
triple is (what the caller sees, final filesystem, whether the transfer
was attempted at all). The then branch runs tryDeleteFile on success, the
catch branch runs tryDeleteFile and rethrows on failure; in both branches
a throw from tryDeleteFile itself escapes first. -/
def uploadFile (fs : LocalFS) (uploadFilePath : String)
    (options : IGridFSWriteOption) (deleteFile : Bool)
    (uploadOutcome : Except String IGridFSObject) :
    Except GFSError IGridFSObject × LocalFS × Bool :=
  if existsSync fs uploadFilePath = false then
    (Except.error GFSError.fileNotFound, fs, false)
  else
    match uploadOutcome with
    | Except.ok item =>
        match tryDeleteFile fs uploadFilePath deleteFile with
        | Except.ok fs2 => (Except.ok item, fs2, true)
        | Except.error e => (Except.error (GFSError.fsError e), fs, true)
    | Except.error err =>
        match tryDeleteFile fs uploadFilePath deleteFile with
        | Except.ok fs2 => (Except.error (GFSError.storeError err), fs2, true)
        | Except.error e => (Except.error (GFSError.fsError e), fs, true)

/-- What the caller should see according to the propagation policy: exactly
the upload outcome, the stream error forwarded verbatim. -/
def uploadResultView (out : Except String IGridFSObject) :
    Except GFSError IGridFSObject :=
  match out with
  | Except.ok item => Except.ok item
  | Except.error e => Except.error (GFSError.storeError e)

/-- A settlement call made on a promise. -/
inductive Settle where
  | resolveTrue
  | rejectErr (e : String)
deriving DecidableEq, Repr

/-- The callback handed to bucket.delete in the source: when err is set it
calls reject(err) and then, with no else, still calls resolve(true); the
list records the calls in order. -/
def deleteCallbackSettles (err : Option String) : List Settle :=
  (match err with
   | some e => [Settle.rejectErr e]
   | none => []) ++ [Settle.resolveTrue]

/-- A promise keeps only the first settlement call; later calls are
ignored. none means the promise never settles. -/
def promiseResult (settles : List Settle) : Option (Except GFSError Bool) :=
  match settles.head? with
  | some (Settle.rejectErr e) => some (Except.error (GFSError.storeError e))
  | some Settle.resolveTrue => some (Except.ok true)
  | none => none

/-- MongoGridFS.delete: new ObjectID(id) inside the promise executor (a
throw there rejects the promise with the parse error), then bucket.delete
with the callback above; bucketDeleteErr is the error the store reports
for the given identifier, none meaning success. -/
def delete (bucketDeleteErr : ObjectID → Option String) (id : String) :
    Option (Except GFSError Bool) :=
  match parseObjectID id with
  | Except.error e => some (Except.error e)
  | Except.ok oid => promiseResult (deleteCallbackSettles (bucketDeleteErr oid))

/-- Opaque handle of an established database connection. -/
structure Db where
  handle : Nat
deriving DecidableEq, Repr

/-- A GridFSBucket handle is determined by the connection and the bucket
name passed to its constructor. -/
structure GridFSBucket where
  db : Db
  bucketName : String
deriving DecidableEq, Repr

/-- The MongoGridFS class state: exactly the two readonly constructor
fields; there is no field storing a bucket. -/
structure MongoGridFS where
  connection : Db
  bucketName : String
deriving DecidableEq, Repr

/-- The bucket getter of the source: constructs a new GridFSBucket from the
connection and the configured bucket name on every access. -/
def MongoGridFS.bucket (g : MongoGridFS) : GridFSBucket :=
  ⟨g.connection, g.bucketName⟩

/-- Write options used by concrete witnesses. -/
def writeOpts0 : IGridFSWriteOption := ⟨"a.txt", none, [], none, []⟩

/-- Filesystem with no files, deletions always succeed. -/
def emptyFS : LocalFS := ⟨[], fun _ => none⟩

/-- Filesystem holding one file, deletions always succeed. -/
def okFS : LocalFS := ⟨["/a"], fun _ => none⟩

/-- Filesystem holding one file whose deletion throws a permission error. -/
def brokenFS : LocalFS := ⟨["/a"], fun p => if p = "/a" then some "EACCES" else none⟩

/-- Claim C1, counterexample: with targetDir present but equal to the empty
string (falsy in JavaScript) and a string filename, the code resolves under
the system temp directory while the six row table of the claim resolves
under the given targetDir; the two disagree. -/
theorem getDownloadPath_emptyDir_counterexample :
    getDownloadPath "/tmp" "u1" sampleObject ⟨FilenameOption.str "a", some ""⟩ = "/tmp/a" ∧
    resolvePathClaim "/tmp" "u1" sampleObject ⟨FilenameOption.str "a", some ""⟩ = "/a" ∧
    getDownloadPath "/tmp" "u1" sampleObject ⟨FilenameOption.str "a", some ""⟩ ≠
      resolvePathClaim "/tmp" "u1" sampleObject ⟨FilenameOption.str "a", some ""⟩ := by
  refine ⟨rfl, rfl, ?_⟩
  decide

/-- Claim C1, amended: for every record and every options value,
getDownloadPath returns exactly the path given by the six row decision
table, where a row is selected by the effective targetDir: an absent or
empty string targetDir selects the temp directory rows, a nonempty
targetDir selects the targetDir rows. -/
theorem getDownloadPath_matches_table (tmpdir rand : String)
    (o : IGridFSObject) (opts : IDownloadOptions) :
    getDownloadPath tmpdir rand o opts = resolvePathAmended tmpdir rand o opts := by
  rcases opts with ⟨fn, td⟩
  rcases td with _ | t
  · rcases fn with b | s
    · cases b <;> rfl
    · rfl
  · by_cases h : t = ""
    · subst h
      rcases fn with b | s
      · cases b <;> rfl
      · rfl
    · rcases fn with b | s
      · cases b <;>
          simp [getDownloadPath, resolvePathAmended, resolvePathClaim, effectiveTargetDir,
            targetDirFalsy, uniqueFilename, h]
      · simp [getDownloadPath, resolvePathAmended, resolvePathClaim, effectiveTargetDir,
          targetDirFalsy, uniqueFilename, h]

/-- Claim C10: with the options argument omitted the default parameter
value filename false with no targetDir applies, so the result is the
randomly generated unique name under the system temp directory, and the
record (its identifier and stored filename included) is never consulted:
the result is the same for every record. -/
theorem getDownloadPath_omitted_options (tmpdir rand : String) (o : IGridFSObject) :
    getDownloadPathDefaulted tmpdir rand o
      = getDownloadPath tmpdir rand o ⟨FilenameOption.bool false, none⟩ ∧
    getDownloadPathDefaulted tmpdir rand o = tmpdir ++ "/" ++ rand :=
  ⟨rfl, rfl⟩

/-- Claim C3: findOne returns the first element of the list that find
returns for the filter, and fails with NotFound exactly when that list is
empty; find itself always returns a list, never an error. -/
theorem findOne_first_of_find (store : List IGridFSObject)
    (filter : IGridFSObject → Bool) :
    (findOne store filter = Except.error GFSError.notFound ↔ find store filter = []) ∧
    (∀ x l, find store filter = x :: l → findOne store filter = Except.ok x) := by
  constructor
  · constructor
    · intro h
      cases hf : find store filter with
      | nil => rfl
      | cons a l => simp [findOne, hf] at h
    · intro h
      simp [findOne, h]
  · intro x l h
    simp [findOne, h]

/-- Witness for claim C3 at concrete inputs: a singleton store with the
always true filter yields its record, and the empty store yields NotFound. -/
theorem findOne_first_of_find_witness :
    findOne [sampleObject] (fun _ => true) = Except.ok sampleObject ∧
    findOne [] (fun _ => true) = Except.error GFSError.notFound := by
  constructor
  · exact (findOne_first_of_find [sampleObject] (fun _ => true)).2 sampleObject [] rfl
  · exact (findOne_first_of_find [] (fun _ => true)).1.mpr rfl

/-- Claim C2: findById builds the identifier equality filter from the
string and delegates to findOne; when the string does not parse the parse
error itself (an InvalidIdentifier) propagates untranslated, and when it
parses but no record matches the filter the result is NotFound. -/
theorem findById_spec (store : List IGridFSObject) (id : String) :
    (∀ e, parseObjectID id = Except.error e →
        findById store id = Except.error e ∧ ∃ m, e = GFSError.invalidIdentifier m) ∧
    (∀ oid, parseObjectID id = Except.ok oid →
        findById store id = findOne store (idFilter oid) ∧
        ((∀ o ∈ store, o._id ≠ oid) → findById store id = Except.error GFSError.notFound)) := by
  constructor
  · intro e h
    constructor
    · simp [findById, h]
    · unfold parseObjectID at h
      by_cases hv : isValidObjectId id
      · simp [hv] at h
      · simp [hv] at h
        exact ⟨objectIdParseMsg, h.symm⟩
  · intro oid h
    constructor
    · simp [findById, h]
    · intro hno
      have hfind : find store (idFilter oid) = [] := by
        rw [find, List.filter_eq_nil_iff]
        intro o ho
        simp [idFilter]
        exact hno o ho
      simp [findById, h, findOne, hfind]

/-- Witness for claim C2 at concrete inputs: a malformed identifier string
fails with the propagated InvalidIdentifier parse error, and a well formed
identifier over the empty store fails with NotFound. -/
theorem findById_spec_witness :
    findById [] "zz" = Except.error (GFSError.invalidIdentifier objectIdParseMsg) ∧
    findById [] "aaaaaaaaaaaa" = Except.error GFSError.notFound := by
  constructor
  · exact ((findById_spec [] "zz").1 (GFSError.invalidIdentifier objectIdParseMsg) rfl).1
  · exact ((findById_spec [] "aaaaaaaaaaaa").2 ⟨"aaaaaaaaaaaa"⟩ rfl).2
      (by intro o ho; cases ho)

/-- Claim C4, counterexample: when the destination write stream fails, the
promise of downloadFile never settles (no handler is registered on the
write stream), so it does not reject with the underlying stream error as
the claim states. -/
theorem downloadFile_writeError_counterexample :
    downloadFile [sampleObject] "/tmp" "u1" "59e085f272882d728e2fa4c2" none
      (StreamEvent.writeError "ENOSPC") = none ∧
    (none : Option (Except GFSError String)) ≠
      some (Except.error (GFSError.storeError "ENOSPC")) :=
  ⟨rfl, fun h => Option.noConfusion h⟩

/-- Claim C4, amended: once the record resolves, downloadFile resolves with
the final path when the source read stream reports end, rejects with the
underlying stream error when the source read stream fails, and never
settles when the destination write stream fails. -/
theorem downloadFile_stream_events (store : List IGridFSObject)
    (tmpdir rand id : String) (options : Option IDownloadOptions)
    (object : IGridFSObject) (h : findById store id = Except.ok object) :
    downloadFile store tmpdir rand id options StreamEvent.readEnd =
      some (Except.ok (getDownloadPath tmpdir rand object
        (options.getD defaultDownloadOptions))) ∧
    (∀ e, downloadFile store tmpdir rand id options (StreamEvent.readError e) =
      some (Except.error (GFSError.storeError e))) ∧
    (∀ e, downloadFile store tmpdir rand id options (StreamEvent.writeError e) = none) := by
  refine ⟨?_, ?_, ?_⟩ <;> simp [downloadFile, h, downloadFileSettle]

/-- Witness for claim C4 at a concrete store and identifier. -/
theorem downloadFile_stream_events_witness :
    downloadFile [sampleObject] "/tmp" "u1" "59e085f272882d728e2fa4c2" none
      StreamEvent.readEnd = some (Except.ok "/tmp/u1") :=
  (downloadFile_stream_events [sampleObject] "/tmp" "u1" "59e085f272882d728e2fa4c2"
    none sampleObject rfl).1

/-- Claim C5: when the source path does not exist, uploadFile fails with
FileNotFound, the filesystem is untouched, and no transfer is attempted
(the attempted flag of the model is false: no upload stream is opened). -/
theorem uploadFile_missing_source (fs : LocalFS) (p : String)
    (opts : IGridFSWriteOption) (dF : Bool) (out : Except String IGridFSObject)
    (h : existsSync fs p = false) :
    uploadFile fs p opts dF out = (Except.error GFSError.fileNotFound, fs, false) := by
  simp [uploadFile, h]

/-- Witness for claim C5 on the empty filesystem. -/
theorem uploadFile_missing_source_witness :
    existsSync emptyFS "/a" = false ∧
    uploadFile emptyFS "/a" writeOpts0 true (Except.ok sampleObject) =
      (Except.error GFSError.fileNotFound, emptyFS, false) :=
  ⟨rfl, uploadFile_missing_source emptyFS "/a" writeOpts0 true (Except.ok sampleObject) rfl⟩

/-- Helper: after filtering out a path, the list no longer contains it. -/
theorem contains_filter_ne_self (l : List String) (p : String) :
    (l.filter (fun q => q != p)).contains p = false := by
  simp [List.contains, List.elem_eq_mem, List.mem_filter]

/-- Claim C6: for an existing source file whose deletion the environment
permits, uploadFile with deleteFile true leaves the source file removed for
every upload outcome (success or failure), and with deleteFile false leaves
it on disk for every outcome. -/
theorem uploadFile_deleteFile_effect (fs : LocalFS) (p : String)
    (opts : IGridFSWriteOption) (out : Except String IGridFSObject)
    (h1 : existsSync fs p = true) (h2 : fs.unlinkErr p = none) :
    existsSync (uploadFile fs p opts true out).2.1 p = false ∧
    existsSync (uploadFile fs p opts false out).2.1 p = true := by
  have hdel : tryDeleteFile fs p true =
      Except.ok ⟨fs.files.filter (fun q => q != p), fs.unlinkErr⟩ := by
    simp [tryDeleteFile, h1, unlinkSync, h2]
  have hkeep : tryDeleteFile fs p false = Except.ok fs := by
    simp [tryDeleteFile]
  constructor
  · cases out <;>
      simp only [uploadFile, h1, Bool.true_eq_false, if_false, hdel] <;>
      exact contains_filter_ne_self fs.files p
  · cases out <;>
      simp only [uploadFile, h1, Bool.true_eq_false, if_false, hkeep]

/-- Witness for claim C6 on a one file filesystem. -/
theorem uploadFile_deleteFile_effect_witness :
    existsSync (uploadFile okFS "/a" writeOpts0 true (Except.ok sampleObject)).2.1 "/a" = false ∧
    existsSync (uploadFile okFS "/a" writeOpts0 false (Except.ok sampleObject)).2.1 "/a" = true :=
  uploadFile_deleteFile_effect okFS "/a" writeOpts0 (Except.ok sampleObject) rfl rfl

/-- Claim C7, counterexample: the cleanup is not guarded against a throw of
the unlink itself; when the deletion fails with a permission error on the
success path of the upload, the caller sees the cleanup error instead of
the upload result. -/
theorem uploadFile_cleanup_error_counterexample :
    (uploadFile brokenFS "/a" writeOpts0 true (Except.ok sampleObject)).1 =
      Except.error (GFSError.fsError "EACCES") ∧
    Except.error (GFSError.fsError "EACCES") ≠
      (Except.ok sampleObject : Except GFSError IGridFSObject) :=
  ⟨rfl, fun h => Except.noConfusion h⟩

/-- Claim C7, amended: the existence guard means a missing file never makes
the cleanup throw, and whenever the deletion itself does not throw, the
result or error seen by the caller is exactly the upload outcome; but a
throw of the deletion replaces the upload outcome (shown by the
counterexample). -/
theorem uploadFile_cleanup_silent (fs : LocalFS) (p : String)
    (opts : IGridFSWriteOption) (dF : Bool) (out : Except String IGridFSObject)
    (h1 : existsSync fs p = true) (h2 : fs.unlinkErr p = none) :
    (uploadFile fs p opts dF out).1 = uploadResultView out := by
  have hdel : ∃ fs2, tryDeleteFile fs p dF = Except.ok fs2 := by
    cases dF
    · exact ⟨fs, by simp [tryDeleteFile]⟩
    · refine ⟨⟨fs.files.filter (fun q => q != p), fs.unlinkErr⟩, ?_⟩
      simp [tryDeleteFile, h1, unlinkSync, h2]
  obtain ⟨fs2, hfs2⟩ := hdel
  cases out <;> simp [uploadFile, h1, hfs2, uploadResultView]

/-- Witness for claim C7: with a permitted deletion, a failing upload
surfaces exactly the upload error. -/
theorem uploadFile_cleanup_silent_witness :
    (uploadFile okFS "/a" writeOpts0 true (Except.error "boom")).1 =
      Except.error (GFSError.storeError "boom") :=
  uploadFile_cleanup_silent okFS "/a" writeOpts0 true (Except.error "boom") rfl rfl

/-- Claim C8: delete parses the identifier and forwards to the bucket
delete operation; it resolves true when the store reports success, and
rejects with the store error carried verbatim (a storeError, not the
NotFound of the metadata query layer) when the store reports any error. -/
theorem delete_spec (bucketDeleteErr : ObjectID → Option String) (id : String)
    (oid : ObjectID) (h : parseObjectID id = Except.ok oid) :
    (bucketDeleteErr oid = none → delete bucketDeleteErr id = some (Except.ok true)) ∧
    (∀ e, bucketDeleteErr oid = some e →
        delete bucketDeleteErr id = some (Except.error (GFSError.storeError e)) ∧
        GFSError.storeError e ≠ GFSError.notFound) := by
  constructor
  · intro hb
    simp [delete, h, deleteCallbackSettles, hb, promiseResult]
  · intro e hb
    exact ⟨by simp [delete, h, deleteCallbackSettles, hb, promiseResult],
      fun hc => GFSError.noConfusion hc⟩

/-- Witness for claim C8 at a concrete identifier, for both a succeeding
store and a store reporting an error. -/
theorem delete_spec_witness :
    delete (fun _ => none) "59e085f272882d728e2fa4c2" = some (Except.ok true) ∧
    delete (fun _ => some "FileNotFound: file with id 59e0 not found")
        "59e085f272882d728e2fa4c2" =
      some (Except.error (GFSError.storeError
        "FileNotFound: file with id 59e0 not found")) :=
  ⟨(delete_spec (fun _ => none) "59e085f272882d728e2fa4c2" sampleOid rfl).1 rfl,
   ((delete_spec (fun _ => some "FileNotFound: file with id 59e0 not found")
      "59e085f272882d728e2fa4c2" sampleOid rfl).2 _ rfl).1⟩

/-- Claim C9: the class state is exactly the connection and the bucket
name, and the bucket accessor is a pure function of that pair: two
instances agreeing on both fields observe equal bucket handles, and the
handle is the fresh construction from those fields. -/
theorem bucket_pure_function (g1 g2 : MongoGridFS)
    (hc : g1.connection = g2.connection) (hn : g1.bucketName = g2.bucketName) :
    MongoGridFS.bucket g1 = MongoGridFS.bucket g2 ∧
    MongoGridFS.bucket g1 = ⟨g1.connection, g1.bucketName⟩ := by
  exact ⟨by simp [MongoGridFS.bucket, hc, hn], rfl⟩

/-- Witness for claim C9 on two instances built from the same connection
and the conventional default bucket name. -/
theorem bucket_pure_function_witness :
    MongoGridFS.bucket ⟨⟨0⟩, "fs"⟩ = MongoGridFS.bucket ⟨⟨0⟩, "fs"⟩ :=
  (bucket_pure_function ⟨⟨0⟩, "fs"⟩ ⟨⟨0⟩, "fs"⟩ rfl rfl).1

end GridFS
